import Mathlib

/-!
Verification development for the loom trace library
(`pkg/docker/runtime/python/loom_trace.py`).

The Python source is shallowly embedded: Python dicts become insertion-ordered
association lists (`List (String × _)` with `dinsert`/`dget` mirroring
`d[k] = v` / `d.get(k, default)`), attribute values (`Dict[str, Any]`, used
with JSON-serializable scalars) become the scalar type `JVal`, the ambient
effects (`os.environ`, `uuid.uuid4()`, `datetime.utcnow()`, stderr writes and
their possible failure) become explicit parameters and explicit output lists
of emitted lines.
-/

namespace Loom

/-- Scalar JSON-serializable attribute value, the shape of the values the
library's callers put in `attributes : Dict[str, Any]`. -/
inductive JVal where
  | null : JVal
  | bool : Bool → JVal
  | int : Int → JVal
  | str : String → JVal
deriving DecidableEq, Repr

/-- JSON value, target of `json.dumps(asdict(span))` viewed at the level of
the JSON object tree (the textual rendering is the standard injective JSON
encoding of this tree). -/
inductive Json where
  | null : Json
  | bool : Bool → Json
  | int : Int → Json
  | str : String → Json
  | obj : List (String × Json) → Json
deriving Repr

/-- Python `d[k] = v` on an insertion-ordered dict: an existing key keeps its
position and gets the new value, a new key is appended at the end. -/
def dinsert (m : List (String × α)) (k : String) (v : α) : List (String × α) :=
  match m with
  | [] => [(k, v)]
  | p :: rest => if p.1 = k then (k, v) :: rest else p :: dinsert rest k v

/-- Python `d.get(k)`: value of the first (hence, with `dinsert`, the only)
entry with key `k`. -/
def dget (m : List (String × α)) (k : String) : Option α :=
  (m.find? (fun p => p.1 = k)).map (fun p => p.2)

/-- Python `d.get(k, default)`. -/
def dgetD (m : List (String × α)) (k : String) (d : α) : α :=
  (dget m k).getD d

/-- Span dataclass of `loom_trace.py`: trace_id, span_id, parent_id, name,
start_time, optional end_time, attributes dict, status. -/
structure Span where
  trace_id : String
  span_id : String
  parent_id : String
  name : String
  start_time : String
  end_time : Option String
  attributes : List (String × JVal)
  status : String
deriving DecidableEq, Repr

/-- Environment variables read by `LoomTracer.__init__`; `none` models an
absent variable, `some s` a variable set to the string `s` (possibly empty).
`os.environ.get(k, default)` returns the stored string even when it is empty;
the default is used only when the variable is absent. -/
structure Env where
  loom_trace_id : Option String
  loom_span_id : Option String
  loom_trace_baggage : Option String

/-- State of a `LoomTracer` instance after `__init__`. -/
structure LoomTracer where
  trace_id : String
  parent_span_id : String
  baggage : List (String × String)
  tenant_id : String
  org_id : String
  spans : List Span
deriving Repr

/-- Whitespace set of Python's `str.strip()` (ASCII part): space, tab,
newline, carriage return, vertical tab, form feed. -/
def pyIsSpace (c : Char) : Bool :=
  c = ' ' || c = '\t' || c = '\n' || c = '\r' || c = '\x0b' || c = '\x0c'

/-- Python `str.strip()` on a character list: drop whitespace from both
ends. -/
def stripChars (l : List Char) : List Char :=
  ((l.dropWhile pyIsSpace).reverse.dropWhile pyIsSpace).reverse

/-- Python `s.split(sep)` for a one-character separator: split on every
occurrence, keeping empty segments; the empty string yields `[[]]`
(one empty segment), as `"".split(",")` yields `[""]`. -/
def splitOnChar (sep : Char) : List Char → List (List Char)
  | [] => [[]]
  | c :: rest =>
    let r := splitOnChar sep rest
    if c = sep then [] :: r
    else
      match r with
      | [] => [[c]]
      | seg :: segs => (c :: seg) :: segs

/-- Python `s.split(sep, 1)` restricted to the informative case: `none` when
`sep` does not occur (Python's `"=" in pair` test is false), otherwise the
part before the first occurrence and the part after it. -/
def splitFirst (sep : Char) : List Char → Option (List Char × List Char)
  | [] => none
  | c :: rest =>
    if c = sep then some ([], rest)
    else
      match splitFirst sep rest with
      | none => none
      | some (k, v) => some (c :: k, v)

/-- `LoomTracer._parse_baggage`: return `{}` on the empty string; otherwise
split the string on `,`; for each segment, strip it, keep it only when it
contains `=`, split on the first `=` only, strip both sides, and store the
pair when both sides are non-empty (Python `result[key] = val`, so a later
duplicate key overwrites the earlier value). -/
def parse_baggage (baggage_str : String) : List (String × String) :=
  if baggage_str = "" then []
  else
    (splitOnChar ',' baggage_str.data).foldl
      (fun result pair =>
        let pair := stripChars pair
        match splitFirst '=' pair with
        | none => result
        | some (k, v) =>
          let key := String.mk (stripChars k)
          let val := String.mk (stripChars v)
          if key ≠ "" && val ≠ "" then dinsert result key val else result)
      []

/-- `LoomTracer.__init__`: read `LOOM_TRACE_ID` (falling back to a fresh
`uuid.uuid4()` string, passed here as `freshId`, only when the variable is
absent), `LOOM_SPAN_ID` (falling back to `""`), parse `LOOM_TRACE_BAGGAGE`,
and extract `tenant_id` / `org_id` from the baggage with default `""`. -/
def LoomTracer.init (env : Env) (freshId : String) : LoomTracer :=
  let baggage := parse_baggage (env.loom_trace_baggage.getD "")
  { trace_id := env.loom_trace_id.getD freshId
    parent_span_id := env.loom_span_id.getD ""
    baggage := baggage
    tenant_id := dgetD baggage "tenant_id" ""
    org_id := dgetD baggage "org_id" ""
    spans := [] }

/-- Injection of tenant context performed by `LoomTracer.start_span` on the
caller's attributes dict: Python executes `attributes["tenant_id"] =
self.tenant_id` when the tracer's tenant id is non-empty, then likewise for
`org_id` — writing into the very dict object the caller passed. -/
def injectTenantContext (t : LoomTracer) (attributes : List (String × JVal)) :
    List (String × JVal) :=
  let a := if t.tenant_id ≠ "" then dinsert attributes "tenant_id" (JVal.str t.tenant_id)
           else attributes
  if t.org_id ≠ "" then dinsert a "org_id" (JVal.str t.org_id) else a

/-- `LoomTracer.start_span`: default the attributes dict when `None` was
passed, inject tenant context into it, and build a span whose `span_id` is a
fresh `uuid.uuid4()` string (`freshSpanId`), whose `parent_id` is
`self.parent_span_id or self.trace_id` (Python `or`: the trace id is used
exactly when the parent span id is the empty string), and whose `start_time`
is the current UTC time (`now`). The span is appended to `self.spans` and
returned. -/
def LoomTracer.start_span (t : LoomTracer) (name : String)
    (attributes : Option (List (String × JVal))) (freshSpanId : String)
    (now : String) : Span × LoomTracer :=
  let attrs := injectTenantContext t (attributes.getD [])
  let span : Span :=
    { trace_id := t.trace_id
      span_id := freshSpanId
      parent_id := if t.parent_span_id ≠ "" then t.parent_span_id else t.trace_id
      name := name
      start_time := now
      end_time := none
      attributes := attrs
      status := "unset" }
  (span, { t with spans := t.spans ++ [span] })

/-- Attributes dict the caller still holds after `start_span` returned, when
the caller passed a dict of its own: Python mutates that dict in place (and
the span's `attributes` field aliases it), so the caller's object now carries
the injected tenant context. -/
def callerAttrsAfterStart (t : LoomTracer) (attributes : List (String × JVal)) :
    List (String × JVal) :=
  injectTenantContext t attributes

/-- Line written to stderr by `end_span`: either a `__LOOM_TRACE__:` line
carrying the JSON rendering of the span, or a `__LOOM_TRACE_ERROR__:`
diagnostic line carrying a human-readable message. -/
inductive TraceLine where
  | traceLine : Json → TraceLine
  | traceErrorLine : String → TraceLine
deriving Repr

/-- `JVal` viewed as a `Json` value, the way `json.dumps` encodes it. -/
def JVal.toJson : JVal → Json
  | .null => .null
  | .bool b => .bool b
  | .int n => .int n
  | .str s => .str s

/-- `Span.to_json`, at the level of the JSON object tree:
`json.dumps(asdict(self))` renders the dataclass fields, in declaration
order, as one JSON object. -/
def Span.to_json (s : Span) : Json :=
  Json.obj
    [ ("trace_id", .str s.trace_id)
    , ("span_id", .str s.span_id)
    , ("parent_id", .str s.parent_id)
    , ("name", .str s.name)
    , ("start_time", .str s.start_time)
    , ("end_time", match s.end_time with | some e => .str e | none => .null)
    , ("attributes", Json.obj (s.attributes.map (fun p => (p.1, p.2.toJson))))
    , ("status", .str s.status) ]

/-- `LoomTracer.end_span`: set `end_time` to the current UTC time (`now`) and
`status` to the given status, then try to export
`__LOOM_TRACE__:{span json}` to stderr. The `export` parameter is the
outcome of the serialization-and-write attempt (`.ok ()` when it worked,
`.error e` when `span.to_json()` or the `print` raised `e`); on failure the
exception is swallowed and a single `__LOOM_TRACE_ERROR__:` diagnostic line
is printed instead. Returns the mutated span and the lines written to
stderr. -/
def end_span (span : Span) (status : String) (now : String)
    (exportResult : Except String Unit) : Span × List TraceLine :=
  let span := { span with end_time := some now, status := status }
  match exportResult with
  | .ok _ => (span, [TraceLine.traceLine span.to_json])
  | .error e => (span, [TraceLine.traceErrorLine ("Failed to export span: " ++ e)])

/-- One run of the `trace_span` context manager (`with trace_span(name,
**attributes): body`): `__enter__` calls `tracer.start_span(name,
attributes)`; the protected block runs, finishing either normally with a
value (`body = .ok v`) or by raising (`body = .error e`); `__exit__`
computes `status = "error" if exc_type else "ok"`, calls
`tracer.end_span(span, status)` and returns `False`, so the exception is
not suppressed. The result is the block's own outcome (re-raised unaltered
on the error path), the finalized span and the exported lines. -/
def trace_span_run (t : LoomTracer) (name : String)
    (attributes : List (String × JVal)) (freshSpanId startNow endNow : String)
    (body : Except ε α) (exportResult : Except String Unit) :
    Except ε α × Span × List TraceLine :=
  let (span, _t) := t.start_span name (some attributes) freshSpanId startNow
  let status := match body with | .ok _ => "ok" | .error _ => "error"
  let (endedSpan, lines) := end_span span status endNow exportResult
  (body, endedSpan, lines)

/-- Keys of a JSON object, in order. -/
def Json.objKeys : Json → List String
  | .obj fields => fields.map (fun p => p.1)
  | _ => []

/-- Conformant reading of a JSON string. -/
def Json.asStr : Json → Option String
  | .str s => some s
  | _ => none

/-- Conformant reading of a JSON string-or-null, the encoding of the
optional `end_time`. -/
def Json.asOptStr : Json → Option (Option String)
  | .null => some none
  | .str s => some (some s)
  | _ => none

/-- Partial inverse of `JVal.toJson`. -/
def Json.toJVal : Json → Option JVal
  | .null => some .null
  | .bool b => some (.bool b)
  | .int n => some (.int n)
  | .str s => some (.str s)
  | .obj _ => none

/-- Conformant reading of the `attributes` object's field list back into an
attributes dict. -/
def decodeAttrFields : List (String × Json) → Option (List (String × JVal))
  | [] => some []
  | (k, v) :: rest => do
    let v2 ← v.toJVal
    let rest2 ← decodeAttrFields rest
    some ((k, v2) :: rest2)

/-- Conformant reader for an exported span record: look up each of the eight
documented fields in the JSON object and rebuild the span. -/
def decodeSpan (j : Json) : Option Span :=
  match j with
  | .obj fields => do
    let tid ← dget fields "trace_id" >>= Json.asStr
    let sid ← dget fields "span_id" >>= Json.asStr
    let pid ← dget fields "parent_id" >>= Json.asStr
    let nm ← dget fields "name" >>= Json.asStr
    let st ← dget fields "start_time" >>= Json.asStr
    let et ← dget fields "end_time" >>= Json.asOptStr
    let attrsJson ← dget fields "attributes"
    let attrs ← match attrsJson with
      | .obj af => decodeAttrFields af
      | _ => none
    let stat ← dget fields "status" >>= Json.asStr
    some ⟨tid, sid, pid, nm, st, et, attrs, stat⟩
  | _ => none

/-- Baggage parsing as the specification words it: split on `,`; for each
segment, trim whitespace; if it contains no `=`, discard it silently;
otherwise take the part before the first `=` as key and the rest as value,
trim both sides, discard the pair if either side is empty after trimming;
insert the surviving pairs in order, later duplicate keys overwriting
earlier ones. -/
def specSegmentPair (seg : List Char) : Option (String × String) :=
  let seg := stripChars seg
  if '=' ∈ seg then
    let key := String.mk (stripChars (seg.takeWhile (fun c => c ≠ '=')))
    let val := String.mk (stripChars ((seg.dropWhile (fun c => c ≠ '=')).tail))
    if key = "" ∨ val = "" then none else some (key, val)
  else none

/-- Whole-string baggage parsing as the specification words it, built from
`specSegmentPair`. -/
def spec_parse_baggage (s : String) : List (String × String) :=
  ((splitOnChar ',' s.data).filterMap specSegmentPair).foldl
    (fun m p => dinsert m p.1 p.2) []

/-- Concrete span used by witnesses and counterexamples. -/
def sampleSpan : Span :=
  { trace_id := "t1", span_id := "s1", parent_id := "p1", name := "work"
    start_time := "2024-01-01T00:00:00Z", end_time := none
    attributes := [("k", JVal.str "v")], status := "unset" }

/-! Helper lemmas shared by the claim theorems. -/

/-- Lookup in the empty dict. -/
theorem dget_nil (k : String) : dget ([] : List (String × α)) k = none := rfl

/-- Lookup steps over one entry. -/
theorem dget_cons (p : String × α) (m : List (String × α)) (k : String) :
    dget (p :: m) k = if p.1 = k then some p.2 else dget m k := by
  by_cases h : p.1 = k <;> simp [dget, List.find?, h]

/-- Looking up the just-inserted key yields the new value; any other key is
unaffected by the insertion. -/
theorem dget_dinsert (m : List (String × α)) (k k' : String) (v : α) :
    dget (dinsert m k v) k' = if k' = k then some v else dget m k' := by
  induction m with
  | nil =>
    show dget [(k, v)] k' = _
    rw [dget_cons]
    by_cases h : k' = k
    · simp [h]
    · simp [h, Ne.symm h, dget_nil]
  | cons p m ih =>
    simp only [dinsert]
    by_cases hp : p.1 = k
    · rw [if_pos hp, dget_cons, dget_cons]
      by_cases h : k' = k
      · simp [h]
      · rw [if_neg h, if_neg (fun hh : p.1 = k' => h (hp.symm.trans hh).symm)]
        exact if_neg (fun hh : (k, v).1 = k' => h hh.symm)
    · rw [if_neg hp, dget_cons, dget_cons, ih]
      by_cases h : k' = k
      · subst h
        simp [hp]
      · simp [h]

/-- Scalar attribute values survive the JSON encode/decode round trip. -/
theorem toJVal_toJson (v : JVal) : v.toJson.toJVal = some v := by
  cases v <;> rfl

/-- The attributes object written by `Span.to_json` decodes back to the
original attributes dict. -/
theorem decodeAttrFields_map_toJson (l : List (String × JVal)) :
    decodeAttrFields (l.map (fun p => (p.1, p.2.toJson))) = some l := by
  induction l with
  | nil => rfl
  | cons p l ih =>
    simp [decodeAttrFields, toJVal_toJson, ih]

/-- Decoding the JSON record written by `Span.to_json` reproduces the span
exactly. -/
theorem decodeSpan_to_json (s : Span) : decodeSpan s.to_json = some s := by
  cases s with
  | mk tid sid pid nm st et attrs stat =>
    cases et <;>
      simp [decodeSpan, Span.to_json, dget, Json.asStr, Json.asOptStr,
        decodeAttrFields_map_toJson]

/-- Splitting at the first occurrence of `sep` is the takeWhile/dropWhile
decomposition the specification describes. -/
theorem splitFirst_eq_spec (sep : Char) (l : List Char) :
    splitFirst sep l =
      if sep ∈ l then
        some (l.takeWhile (fun c => c ≠ sep), (l.dropWhile (fun c => c ≠ sep)).tail)
      else none := by
  induction l with
  | nil => rfl
  | cons c rest ih =>
    by_cases h : c = sep
    · subst h
      simp [splitFirst, List.takeWhile, List.dropWhile]
    · simp only [splitFirst, if_neg h, ih]
      by_cases hm : sep ∈ rest
      · simp [hm, h, List.takeWhile, List.dropWhile, Ne.symm h]
      · rw [if_neg hm]
        rw [if_neg (fun hh : sep ∈ c :: rest => by
          cases List.mem_cons.mp hh with
          | inl hh2 => exact h hh2.symm
          | inr hh2 => exact hm hh2)]

/-- Folding with an inline optional step is folding over the `filterMap`. -/
theorem foldl_step_filterMap (f : σ → Option π) (g : β → π → β) (l : List σ) (acc : β) :
    l.foldl (fun r seg => match f seg with | none => r | some p => g r p) acc
      = (l.filterMap f).foldl g acc := by
  induction l generalizing acc with
  | nil => rfl
  | cons a l ih =>
    simp only [List.foldl_cons, List.filterMap_cons]
    cases f a <;> simp [ih]

/-- Parsing as the code does it coincides with parsing as the specification
words it, on every input string. -/
theorem parse_baggage_eq_spec (s : String) : parse_baggage s = spec_parse_baggage s := by
  by_cases h : s = ""
  · subst h
    rfl
  · unfold parse_baggage spec_parse_baggage
    rw [if_neg h, ← foldl_step_filterMap]
    congr 1
    funext r seg
    dsimp only
    unfold specSegmentPair
    rw [splitFirst_eq_spec]
    by_cases hm : '=' ∈ stripChars seg
    · rw [if_pos hm]
      simp only [if_pos hm]
      by_cases hk : String.mk (stripChars (List.takeWhile (fun c => !decide (c = '=')) (stripChars seg))) = ""
      · simp [hk]
      · by_cases hv : String.mk (stripChars (List.dropWhile (fun c => !decide (c = '=')) (stripChars seg)).tail) = ""
        · simp [hk, hv]
        · simp [hk, hv]
    · rw [if_neg hm]
      simp only [if_neg hm]

/-- Injected tenant id is what a lookup finds after injection. -/
theorem dget_inject_tenant (t : LoomTracer) (attrs : List (String × JVal))
    (ht : t.tenant_id ≠ "") :
    dget (injectTenantContext t attrs) "tenant_id" = some (JVal.str t.tenant_id) := by
  simp only [injectTenantContext, if_pos ht]
  by_cases ho : t.org_id ≠ ""
  · rw [if_pos ho, dget_dinsert, if_neg (by decide : ¬("tenant_id" = "org_id")),
      dget_dinsert, if_pos rfl]
  · rw [if_neg ho, dget_dinsert, if_pos rfl]

/-- Injected org id is what a lookup finds after injection. -/
theorem dget_inject_org (t : LoomTracer) (attrs : List (String × JVal))
    (ho : t.org_id ≠ "") :
    dget (injectTenantContext t attrs) "org_id" = some (JVal.str t.org_id) := by
  simp only [injectTenantContext, if_pos ho]
  rw [dget_dinsert, if_pos rfl]

/-- With empty tenant context nothing is injected. -/
theorem inject_empty (t : LoomTracer) (attrs : List (String × JVal))
    (ht : t.tenant_id = "") (ho : t.org_id = "") :
    injectTenantContext t attrs = attrs := by
  simp [injectTenantContext, ht, ho]

/-! Claim theorems. -/

/-- C1: for every span and every status string, `end` sets the span's
`end_time` and `status` and never propagates an error to the caller; when
serialization or the write of the `__LOOM_TRACE__` line fails, the failure
is swallowed and a single `__LOOM_TRACE_ERROR__` diagnostic line is written
to the error stream instead of a `__LOOM_TRACE__` line. -/
theorem end_span_swallows_export_failure (span : Span) (status now : String)
    (exportResult : Except String Unit) :
    ((end_span span status now exportResult).1.end_time = some now) ∧
    ((end_span span status now exportResult).1.status = status) ∧
    ((end_span span status now exportResult).2.length = 1) ∧
    (exportResult = Except.ok () →
      (end_span span status now exportResult).2 =
        [TraceLine.traceLine (end_span span status now exportResult).1.to_json]) ∧
    (∀ e, exportResult = Except.error e →
      (end_span span status now exportResult).2 =
        [TraceLine.traceErrorLine ("Failed to export span: " ++ e)]) := by
  cases exportResult with
  | ok u =>
    cases u
    exact ⟨rfl, rfl, rfl, fun _ => rfl, fun e h => Except.noConfusion h⟩
  | error e =>
    refine ⟨rfl, rfl, rfl, fun h => Except.noConfusion h, fun e2 h => ?_⟩
    injection h with h2
    subst h2
    rfl

/-- Witness for C1 at a concrete span, with a failing export on one hand and
a successful one on the other. -/
theorem end_span_swallows_export_failure_witness :
    ((end_span sampleSpan "ok" "T1" (Except.error "boom")).1.end_time = some "T1") ∧
    ((end_span sampleSpan "ok" "T1" (Except.error "boom")).2 =
      [TraceLine.traceErrorLine ("Failed to export span: " ++ "boom")]) ∧
    ((end_span sampleSpan "ok" "T1" (Except.ok ())).2 =
      [TraceLine.traceLine (end_span sampleSpan "ok" "T1" (Except.ok ())).1.to_json]) :=
  ⟨(end_span_swallows_export_failure sampleSpan "ok" "T1" (Except.error "boom")).1,
   (end_span_swallows_export_failure sampleSpan "ok" "T1" (Except.error "boom")).2.2.2.2
     "boom" rfl,
   (end_span_swallows_export_failure sampleSpan "ok" "T1" (Except.ok ())).2.2.2.1 rfl⟩

/-- Counterexample to C2 as stated: with context tenant `"acme"`, the caller
value `"override"` under `tenant_id` does not win — the resulting attribute
value is the injected `"acme"`. -/
theorem start_span_caller_wins_counterexample :
    (dget ((LoomTracer.init ⟨none, none, some "tenant_id=acme"⟩ "f").start_span "x"
        (some [("tenant_id", JVal.str "override")]) "sid" "T0").1.attributes "tenant_id"
      = some (JVal.str "acme")) ∧
    (some (JVal.str "acme") ≠ some (JVal.str "override")) := by
  decide

/-- C2 (amended): `start` injects the context's `tenant_id`/`org_id` into
the span's attributes whenever those context values are non-empty, but the
injected value overwrites a caller-supplied value under the same key
(tracer wins), so the resulting attribute value is the context's. -/
theorem start_span_injects_context_tracer_wins (t : LoomTracer) (name : String)
    (attrs : List (String × JVal)) (sid now : String) (_hname : name ≠ "") :
    (t.tenant_id ≠ "" →
      dget ((t.start_span name (some attrs) sid now).1.attributes) "tenant_id"
        = some (JVal.str t.tenant_id)) ∧
    (t.org_id ≠ "" →
      dget ((t.start_span name (some attrs) sid now).1.attributes) "org_id"
        = some (JVal.str t.org_id)) :=
  ⟨fun ht => dget_inject_tenant t attrs ht,
   fun ho => dget_inject_org t attrs ho⟩

/-- Witness for C2 (amended) with context tenant `"acme"` and org `"co"` and
a caller-supplied `tenant_id` value. -/
theorem start_span_injects_context_tracer_wins_witness :
    (dget (((LoomTracer.init ⟨none, none, some "tenant_id=acme,org_id=co"⟩ "f").start_span
        "x" (some [("tenant_id", JVal.str "override")]) "sid" "T0").1.attributes) "tenant_id"
      = some (JVal.str "acme")) ∧
    (dget (((LoomTracer.init ⟨none, none, some "tenant_id=acme,org_id=co"⟩ "f").start_span
        "x" (some [("tenant_id", JVal.str "override")]) "sid" "T0").1.attributes) "org_id"
      = some (JVal.str "co")) :=
  ⟨(start_span_injects_context_tracer_wins
      (LoomTracer.init ⟨none, none, some "tenant_id=acme,org_id=co"⟩ "f") "x"
      [("tenant_id", JVal.str "override")] "sid" "T0" (by decide)).1 (by decide),
   (start_span_injects_context_tracer_wins
      (LoomTracer.init ⟨none, none, some "tenant_id=acme,org_id=co"⟩ "f") "x"
      [("tenant_id", JVal.str "override")] "sid" "T0" (by decide)).2 (by decide)⟩

/-- C3: baggage parsing behaves exactly as described — split on `,`, trim
each segment, silently discard segments without `=`, split the rest on the
first `=` only, trim both sides, drop pairs with an empty side, later
duplicate keys overwrite earlier ones — and never throws; in particular
`"a=1,bad,,c=3"` parses to `{a: "1", c: "3"}`. -/
theorem parse_baggage_follows_spec :
    (∀ s, parse_baggage s = spec_parse_baggage s) ∧
    (parse_baggage "a=1,bad,,c=3" = [("a", "1"), ("c", "3")]) ∧
    (parse_baggage "tenant_id=acme,org_id=co" = [("tenant_id", "acme"), ("org_id", "co")]) ∧
    (parse_baggage "k=1,k=2" = [("k", "2")]) ∧
    (parse_baggage " a = b = c ,x" = [("a", "b = c")]) :=
  ⟨parse_baggage_eq_spec, by decide, by decide, by decide, by decide⟩

/-- Counterexample to C4 as stated: a second `end` call on the same span is
neither rejected nor a no-op — it overwrites `end_time` and `status` and
exports a second `__LOOM_TRACE__` record. -/
theorem end_span_double_end_counterexample :
    ((end_span sampleSpan "ok" "T1" (Except.ok ())).1.end_time = some "T1") ∧
    ((end_span (end_span sampleSpan "ok" "T1" (Except.ok ())).1 "error" "T2"
        (Except.ok ())).1.end_time = some "T2") ∧
    (some "T2" ≠ some "T1") ∧
    ((end_span (end_span sampleSpan "ok" "T1" (Except.ok ())).1 "error" "T2"
        (Except.ok ())).1.status = "error") ∧
    ((end_span (end_span sampleSpan "ok" "T1" (Except.ok ())).1 "error" "T2"
        (Except.ok ())).2
      = [TraceLine.traceLine (end_span (end_span sampleSpan "ok" "T1" (Except.ok ())).1
          "error" "T2" (Except.ok ())).1.to_json]) :=
  ⟨rfl, rfl, by decide, rfl, rfl⟩

/-- C4 (amended): a second `end` call on an already ended span is accepted:
it overwrites `end_time` and `status` with the new values and exports the
span once more (a further `__LOOM_TRACE__` line when the write succeeds). -/
theorem end_span_second_call_overwrites_and_reexports (span : Span)
    (st1 st2 t1 t2 : String) (e1 : Except String Unit) :
    ((end_span (end_span span st1 t1 e1).1 st2 t2 (Except.ok ())).1.end_time = some t2) ∧
    ((end_span (end_span span st1 t1 e1).1 st2 t2 (Except.ok ())).1.status = st2) ∧
    ((end_span (end_span span st1 t1 e1).1 st2 t2 (Except.ok ())).2
      = [TraceLine.traceLine
          (end_span (end_span span st1 t1 e1).1 st2 t2 (Except.ok ())).1.to_json]) := by
  cases e1 <;> exact ⟨rfl, rfl, rfl⟩

/-- C5: the scoped span helper starts the span on entry (its name and
start time are the block's), ends it with status `"ok"` on normal exit and
`"error"` on abnormal exit, propagates the original error unaltered to the
caller, and runs `end` exactly once — one exported record — on every exit
path. -/
theorem trace_span_run_correct (t : LoomTracer) (name : String)
    (attrs : List (String × JVal)) (sid t0 t1 : String)
    (body : Except ε α) (exportResult : Except String Unit) :
    ((trace_span_run t name attrs sid t0 t1 body exportResult).1 = body) ∧
    ((trace_span_run t name attrs sid t0 t1 body exportResult).2.1.name = name) ∧
    ((trace_span_run t name attrs sid t0 t1 body exportResult).2.1.start_time = t0) ∧
    (∀ v, body = Except.ok v →
      (trace_span_run t name attrs sid t0 t1 body exportResult).2.1.status = "ok") ∧
    (∀ e, body = Except.error e →
      (trace_span_run t name attrs sid t0 t1 body exportResult).2.1.status = "error" ∧
      (trace_span_run t name attrs sid t0 t1 body exportResult).1 = Except.error e) ∧
    ((trace_span_run t name attrs sid t0 t1 body exportResult).2.2.length = 1) := by
  cases body with
  | ok v =>
    cases exportResult <;>
      exact ⟨rfl, rfl, rfl, fun _ _ => rfl, fun e h => Except.noConfusion h, rfl⟩
  | error e =>
    cases exportResult <;>
      exact ⟨rfl, rfl, rfl, fun v h => Except.noConfusion h, fun e2 h => ⟨rfl, h⟩, rfl⟩

/-- Witness for C5: a concrete scoped block that raises `"app-failure"` ends
its span with status `"error"` and re-raises the same error; a normal block
ends with `"ok"`. -/
theorem trace_span_run_correct_witness :
    ((trace_span_run (LoomTracer.init ⟨some "t1", some "p1", none⟩ "f") "work" [] "sid"
        "T0" "T1" (Except.error "app-failure" : Except String Unit)
        (Except.ok ())).2.1.status = "error") ∧
    ((trace_span_run (LoomTracer.init ⟨some "t1", some "p1", none⟩ "f") "work" [] "sid"
        "T0" "T1" (Except.error "app-failure" : Except String Unit)
        (Except.ok ())).1 = Except.error "app-failure") ∧
    ((trace_span_run (LoomTracer.init ⟨some "t1", some "p1", none⟩ "f") "work" [] "sid"
        "T0" "T1" (Except.ok (0 : Nat) : Except String Nat)
        (Except.ok ())).2.1.status = "ok") :=
  ⟨((trace_span_run_correct (LoomTracer.init ⟨some "t1", some "p1", none⟩ "f") "work" []
      "sid" "T0" "T1" (Except.error "app-failure" : Except String Unit)
      (Except.ok ())).2.2.2.2.1 "app-failure" rfl).1,
   ((trace_span_run_correct (LoomTracer.init ⟨some "t1", some "p1", none⟩ "f") "work" []
      "sid" "T0" "T1" (Except.error "app-failure" : Except String Unit)
      (Except.ok ())).2.2.2.2.1 "app-failure" rfl).2,
   (trace_span_run_correct (LoomTracer.init ⟨some "t1", some "p1", none⟩ "f") "work" []
      "sid" "T0" "T1" (Except.ok (0 : Nat) : Except String Nat)
      (Except.ok ())).2.2.2.1 0 rfl⟩

/-- Counterexample to C6 as stated: with `LOOM_TRACE_ID` set to the empty
string, no fresh identifier is substituted — the loaded trace id is the
empty string, not the available fresh id. -/
theorem init_empty_trace_id_counterexample :
    ((LoomTracer.init ⟨some "", none, none⟩ "fresh-uuid-1234").trace_id = "") ∧
    ("" ≠ "fresh-uuid-1234") := by
  decide

/-- C6 (amended): the fresh randomly generated id is substituted only when
`LOOM_TRACE_ID` is absent (an empty-string value is kept as is); with no
tracing environment variables set, the context has the fresh non-empty
trace id, empty parent span id, empty baggage, and empty tenant/org ids,
and two separate loads with distinct fresh ids have distinct trace ids. -/
theorem init_absent_env_defaults (f1 f2 : String) (h1 : f1 ≠ "") (hne : f1 ≠ f2) :
    ((LoomTracer.init ⟨none, none, none⟩ f1).trace_id = f1) ∧
    ((LoomTracer.init ⟨none, none, none⟩ f1).trace_id ≠ "") ∧
    ((LoomTracer.init ⟨none, none, none⟩ f1).parent_span_id = "") ∧
    ((LoomTracer.init ⟨none, none, none⟩ f1).baggage = []) ∧
    ((LoomTracer.init ⟨none, none, none⟩ f1).tenant_id = "") ∧
    ((LoomTracer.init ⟨none, none, none⟩ f1).org_id = "") ∧
    ((LoomTracer.init ⟨none, none, none⟩ f1).trace_id
      ≠ (LoomTracer.init ⟨none, none, none⟩ f2).trace_id) ∧
    (∀ e : Env, e.loom_trace_id = none → (LoomTracer.init e f1).trace_id = f1) := by
  refine ⟨rfl, h1, rfl, rfl, rfl, rfl, hne, ?_⟩
  intro e he
  simp [LoomTracer.init, he]

/-- Witness for C6 (amended) at two concrete distinct fresh ids. -/
theorem init_absent_env_defaults_witness :
    ((LoomTracer.init ⟨none, none, none⟩ "uuid-aaaa").trace_id = "uuid-aaaa") ∧
    ((LoomTracer.init ⟨none, none, none⟩ "uuid-aaaa").trace_id
      ≠ (LoomTracer.init ⟨none, none, none⟩ "uuid-bbbb").trace_id) :=
  ⟨(init_absent_env_defaults "uuid-aaaa" "uuid-bbbb" (by decide) (by decide)).1,
   (init_absent_env_defaults "uuid-aaaa" "uuid-bbbb" (by decide)
      (by decide)).2.2.2.2.2.2.1⟩

/-- C7: a successful export writes a single `__LOOM_TRACE__` record whose
JSON object has exactly the fields trace_id, span_id, parent_id, name,
start_time, end_time, attributes, status; decoding that record reproduces
the finalized span — in particular the original span's trace_id, span_id,
parent_id, name, the status passed to `end`, and the attribute set —
exactly. -/
theorem end_span_record_roundtrip (span : Span) (status now : String) :
    ((end_span span status now (Except.ok ())).2
      = [TraceLine.traceLine (end_span span status now (Except.ok ())).1.to_json]) ∧
    ((end_span span status now (Except.ok ())).1.to_json.objKeys
      = ["trace_id", "span_id", "parent_id", "name", "start_time", "end_time",
         "attributes", "status"]) ∧
    (decodeSpan (end_span span status now (Except.ok ())).1.to_json
      = some (end_span span status now (Except.ok ())).1) ∧
    ((end_span span status now (Except.ok ())).1.trace_id = span.trace_id) ∧
    ((end_span span status now (Except.ok ())).1.span_id = span.span_id) ∧
    ((end_span span status now (Except.ok ())).1.parent_id = span.parent_id) ∧
    ((end_span span status now (Except.ok ())).1.name = span.name) ∧
    ((end_span span status now (Except.ok ())).1.status = status) ∧
    ((end_span span status now (Except.ok ())).1.attributes = span.attributes) :=
  ⟨rfl, rfl, decodeSpan_to_json _, rfl, rfl, rfl, rfl, rfl, rfl⟩

/-- C8: a span's parent_id is the tracer context's parent span id when that
id is non-empty, and otherwise falls back to the trace id itself — never the
empty string for a root span of a non-empty trace id. -/
theorem start_span_parent_id_fallback (t : LoomTracer) (name : String)
    (attributes : Option (List (String × JVal))) (sid now : String) :
    (t.parent_span_id ≠ "" →
      (t.start_span name attributes sid now).1.parent_id = t.parent_span_id) ∧
    (t.parent_span_id = "" →
      (t.start_span name attributes sid now).1.parent_id = t.trace_id) := by
  constructor <;> intro h <;> simp [LoomTracer.start_span, h]

/-- Witness for C8: with a host-supplied parent the span's parent is that
parent; with no parent in the environment the parent falls back to the trace
id. -/
theorem start_span_parent_id_fallback_witness :
    (((LoomTracer.init ⟨some "t1", some "p1", none⟩ "f").start_span "x" none "sid"
        "T0").1.parent_id = "p1") ∧
    (((LoomTracer.init ⟨some "t1", none, none⟩ "f").start_span "x" none "sid"
        "T0").1.parent_id = "t1") :=
  ⟨(start_span_parent_id_fallback (LoomTracer.init ⟨some "t1", some "p1", none⟩ "f")
      "x" none "sid" "T0").1 (by decide),
   (start_span_parent_id_fallback (LoomTracer.init ⟨some "t1", none, none⟩ "f")
      "x" none "sid" "T0").2 rfl⟩

/-- Counterexample to C9 as stated: with context tenant `"acme"`, after
`start` returns the caller's own mapping is no longer `{k: "v"}` — the
injected `tenant_id` key now appears in it. -/
theorem start_span_caller_mapping_mutated_counterexample :
    (callerAttrsAfterStart (LoomTracer.init ⟨none, none, some "tenant_id=acme"⟩ "f")
        [("k", JVal.str "v")]
      = [("k", JVal.str "v"), ("tenant_id", JVal.str "acme")]) ∧
    ([("k", JVal.str "v"), ("tenant_id", JVal.str "acme")]
      ≠ [("k", JVal.str "v")]) ∧
    (dget (callerAttrsAfterStart (LoomTracer.init ⟨none, none, some "tenant_id=acme"⟩ "f")
        [("k", JVal.str "v")]) "tenant_id" = some (JVal.str "acme")) := by
  decide

/-- C9 (amended): `start` does not clone the caller's mapping — the span's
attributes alias it, and the injection mutates it in place: after the call
the caller's mapping carries the injected `tenant_id`/`org_id` keys whenever
the context values are non-empty, and is unchanged only when both context
values are empty. -/
theorem start_span_mutates_caller_mapping (t : LoomTracer) (name : String)
    (attrs : List (String × JVal)) (sid now : String) :
    (callerAttrsAfterStart t attrs
      = (t.start_span name (some attrs) sid now).1.attributes) ∧
    (t.tenant_id ≠ "" →
      dget (callerAttrsAfterStart t attrs) "tenant_id" = some (JVal.str t.tenant_id)) ∧
    (t.org_id ≠ "" →
      dget (callerAttrsAfterStart t attrs) "org_id" = some (JVal.str t.org_id)) ∧
    (t.tenant_id = "" → t.org_id = "" → callerAttrsAfterStart t attrs = attrs) :=
  ⟨rfl,
   fun ht => dget_inject_tenant t attrs ht,
   fun ho => dget_inject_org t attrs ho,
   fun ht ho => inject_empty t attrs ht ho⟩

/-- Witness for C9 (amended) at a concrete tracer with tenant context and at
one without any. -/
theorem start_span_mutates_caller_mapping_witness :
    (dget (callerAttrsAfterStart (LoomTracer.init ⟨none, none, some "tenant_id=acme"⟩ "f")
        [("k", JVal.str "v")]) "tenant_id" = some (JVal.str "acme")) ∧
    (callerAttrsAfterStart (LoomTracer.init ⟨none, none, none⟩ "f")
        [("k", JVal.str "v")] = [("k", JVal.str "v")]) :=
  ⟨(start_span_mutates_caller_mapping
      (LoomTracer.init ⟨none, none, some "tenant_id=acme"⟩ "f") "x"
      [("k", JVal.str "v")] "sid" "T0").2.1 (by decide),
   (start_span_mutates_caller_mapping (LoomTracer.init ⟨none, none, none⟩ "f") "x"
      [("k", JVal.str "v")] "sid" "T0").2.2.2 rfl rfl⟩

/-- Counterexample to C10 as stated: `end` forwards any status string
verbatim, so a caller passing `"banana"` produces a success record whose
status field is none of "ok", "error", "unset". -/
theorem end_span_status_unvalidated_counterexample :
    ((end_span sampleSpan "banana" "T1" (Except.ok ())).1.status = "banana") ∧
    ((decodeSpan (end_span sampleSpan "banana" "T1" (Except.ok ())).1.to_json).map
        Span.status = some "banana") ∧
    (¬("banana" = "ok" ∨ "banana" = "error" ∨ "banana" = "unset")) := by
  refine ⟨rfl, ?_, by decide⟩
  rw [decodeSpan_to_json]
  rfl

/-- C10 (amended): every success record carries a present `end_time`; its
status field is the caller's argument verbatim, so it lies in
{"ok", "error", "unset"} exactly when the caller passed one of those three
documented values. -/
theorem end_span_record_status_verbatim (span : Span) (status now : String) :
    ((end_span span status now (Except.ok ())).1.end_time = some now) ∧
    ((end_span span status now (Except.ok ())).1.status = status) ∧
    ((status = "ok" ∨ status = "error" ∨ status = "unset") →
      ((end_span span status now (Except.ok ())).1.status = "ok" ∨
       (end_span span status now (Except.ok ())).1.status = "error" ∨
       (end_span span status now (Except.ok ())).1.status = "unset")) :=
  ⟨rfl, rfl, fun h => h⟩

/-- Witness for C10 (amended) at the documented status `"ok"`. -/
theorem end_span_record_status_verbatim_witness :
    ((end_span sampleSpan "ok" "T1" (Except.ok ())).1.end_time = some "T1") ∧
    ((end_span sampleSpan "ok" "T1" (Except.ok ())).1.status = "ok" ∨
     (end_span sampleSpan "ok" "T1" (Except.ok ())).1.status = "error" ∨
     (end_span sampleSpan "ok" "T1" (Except.ok ())).1.status = "unset") :=
  ⟨(end_span_record_status_verbatim sampleSpan "ok" "T1").1,
   (end_span_record_status_verbatim sampleSpan "ok" "T1").2.2 (Or.inl rfl)⟩

end Loom
